import Mathlib

/-!
# ScatterWebExtension — background script, shallow embedding

This file embeds `src/background.js` of the ScatterWebExtension repository:
the session-gated encrypted vault and its message handlers.  The background
script is the only source file present; the model classes it imports
(`Scatter`, `Keychain`, `Permission`, `Network`, the `aes-oop` codec, the
storage/notification/identity services) are external collaborators or
missing model files, and are modelled from the specification where their
behaviour decides a property (each such definition carries a doc comment
saying so).

Conventions:
* JavaScript exceptions (e.g. a failed `AES.decrypt`) are modelled as
  `Option`/`Outcome.crash`; a crash carries the state at the moment of the
  throw and records that `sendResponse` was never invoked.
* `sendResponse(x)` is modelled as the `Resp` component of an `Outcome`.
* `NotificationService.open(prompt)` is modelled as an effect list of
  `Prompt`s in the `Outcome`.
* The mutable module-scope variables `seed`, `inactivityInterval` and
  `timeoutLocker`, together with the persisted document behind
  `StorageService`, form the state record `BG`.
-/

/-- A network as referenced by `settings.networks` and permissions.
Modelled from the spec: the `Network` model file is not in `src/`; the spec
gives it a `host`, a `port` and a derived uniqueness key combining both. -/
structure Network where
  host : String
  port : Nat
deriving DecidableEq, Repr

/-- Modelled from the spec: `Network.unique()` is the derived uniqueness key
combining host and port; `requestAddNetwork` compares networks by it. -/
def Network.unique (n : Network) : String × Nat :=
  (n.host, n.port)

/-- A private-key field, either cleartext or field-level encrypted under a
passphrase.  Modelled from the spec: the `aes-oop` codec is an external
collaborator; field-level encryption wraps only `privateKey` strings, with a
deterministic round-trip for the correct passphrase and a decode failure for
an incorrect one. -/
inductive PrivField where
  | clearP (key : String)
  | encP (pass : String) (key : String)
deriving DecidableEq, Repr

/-- Modelled from the spec: `AES.encrypt(privateKey, seed)` as used by the
`Keypair`/`Identity` model files (not in `src/`); field-encryption is applied
once per mutation boundary, so an already-encrypted field is left as is. -/
def PrivField.fieldEncrypt (f : PrivField) (seed : String) : PrivField :=
  match f with
  | .clearP k => .encP seed k
  | .encP p k => .encP p k

/-- Modelled from the spec: raw `AES.decrypt(ciphertext, seed)` on a
field-encrypted private key, as called directly in `publicToPrivate`.  A
wrong passphrase (or a non-ciphertext input) is a decode failure, modelled
as `none` (the JavaScript call throws). -/
def PrivField.fieldDecrypt (f : PrivField) (seed : String) : Option String :=
  match f with
  | .clearP _ => none
  | .encP p k => if p = seed then some k else none

/-- A keypair: cleartext public key used as lookup key, field-encrypted
private key.  Modelled from the spec (model file not in `src/`). -/
structure Keypair where
  publicKey : String
  privateKey : PrivField
deriving DecidableEq, Repr

/-- `keypair.encrypt(seed)` — field-encrypt the private key. -/
def Keypair.encrypt (kp : Keypair) (seed : String) : Keypair :=
  { kp with privateKey := kp.privateKey.fieldEncrypt seed }

/-- An identity: a named disclosure-scoped profile bound to a public key,
with its own field-encrypted private key and arbitrary profile fields.
Modelled from the spec (model file not in `src/`). -/
structure Identity where
  name : String
  publicKey : String
  privateKey : PrivField
  fields : List (String × String)
deriving DecidableEq, Repr

/-- `identity.encrypt(seed)` — field-encrypt the private key. -/
def Identity.encrypt (i : Identity) (seed : String) : Identity :=
  { i with privateKey := i.privateKey.fieldEncrypt seed }

/-- `identity.decrypt(seed)` as used by `authenticate`: field-decrypt the
private key, yielding the cleartext key string.  Modelled from the spec:
decode failure (wrong passphrase) is `none`; decrypting an already-clear
field is the identity (the model guards on its encryption state). -/
def Identity.decryptKey (i : Identity) (seed : String) : Option String :=
  match i.privateKey with
  | .clearP k => some k
  | .encP p k => if p = seed then some k else none

/-- Derived permission checksum.  Modelled from the spec: a derived key
uniquely identifying `(domain, network, publicKey, fields)` for
deduplication; the timestamp is not part of it. -/
structure Checksum where
  domain : String
  networkUnique : String × Nat
  publicKey : String
  fields : List String
deriving DecidableEq, Repr

/-- A durable grant authorizing a domain/network pair to receive a scoped
view of an Identity.  Modelled from the spec (model file not in `src/`). -/
structure Permission where
  domain : String
  network : Network
  publicKey : String
  timestamp : Nat
  fields : List String
deriving DecidableEq, Repr

/-- Modelled from the spec: the derived checksum of a permission. -/
def Permission.checksum (p : Permission) : Checksum :=
  ⟨p.domain, p.network.unique, p.publicKey, p.fields⟩

/-- Historic event kinds used by the background script. -/
inductive HistoricEventType where
  | providedIdentity
deriving DecidableEq, Repr

/-- Payload recorded by `getOrRequestIdentity` when a fresh identity is
provided (background.js lines 258-264). -/
structure ProvidedIdentityData where
  domain : String
  network : Network
  provided : Bool
  identityName : String
  publicKey : String
deriving DecidableEq, Repr

/-- An append-only audit-trail entry.  Modelled from the spec: `type`,
event-specific `data`, `timestamp`. -/
structure HistoricEvent where
  type : HistoricEventType
  data : ProvidedIdentityData
  timestamp : Nat
deriving DecidableEq, Repr

/-- The keychain owned by the vault: keypairs, identities, permissions.
Modelled from the spec (model file not in `src/`). -/
structure Keychain where
  keypairs : List Keypair
  identities : List Identity
  permissions : List Permission
deriving DecidableEq, Repr

/-- Modelled from the spec: `keychain.hasPermission(checksum, fields)` —
adding a permission that collides on checksum is a no-op, so the membership
test is by checksum (which already derives from the fields). -/
def Keychain.hasPermission (kc : Keychain) (c : Checksum) (_fields : List String) : Bool :=
  kc.permissions.any (fun p => decide (p.checksum = c))

/-- The keychain slot of a Scatter document: cleartext, or document-level
encrypted under a passphrase.  Modelled from the spec: the Vault is
document-level encrypted when at rest; `background.js` reads
`scatter.settings` before decrypting (line 130), so the encrypted payload is
the keychain document while settings and histories stay readable. -/
inductive KeychainField where
  | clear (kc : Keychain)
  | enc (pass : String) (kc : Keychain)
deriving DecidableEq, Repr

/-- `typeof scatter.keychain === 'object'` — true on the decrypted form,
false on the encrypted (string) form. -/
def KeychainField.isObject (k : KeychainField) : Bool :=
  match k with
  | .clear _ => true
  | .enc _ _ => false

/-- Vault settings: auto-lock inactivity duration and known networks. -/
structure Settings where
  inactivityInterval : Nat
  networks : List Network
deriving DecidableEq, Repr

/-- The root Scatter vault document: settings, keychain, histories.
Modelled from the spec (model file not in `src/`). -/
structure Scatter where
  settings : Settings
  keychain : KeychainField
  histories : List HistoricEvent
deriving DecidableEq, Repr

/-- `scatter.encrypt(seed)` — document-encrypt the keychain.  Modelled from
the spec: encryption is applied once per mutation boundary, so an
already-encrypted document is left as is. -/
def Scatter.encrypt (s : Scatter) (seed : String) : Scatter :=
  match s.keychain with
  | .clear kc => { s with keychain := .enc seed kc }
  | .enc _ _ => s

/-- `scatter.decrypt(seed)` — document-decrypt the keychain.  Modelled from
the spec: a wrong passphrase is a decode failure (the JavaScript call
throws), modelled as `none`; decrypting an already-clear document is the
identity. -/
def Scatter.decrypt (s : Scatter) (seed : String) : Option Scatter :=
  match s.keychain with
  | .clear _ => some s
  | .enc p kc => if p = seed then some { s with keychain := .clear kc } else none

/-- Whether the document is encrypted at rest. -/
def Scatter.isEncrypted (s : Scatter) : Bool :=
  match s.keychain with
  | .clear _ => false
  | .enc _ _ => true

/-- Modelled from the spec: the placeholder vault `StorageService.get()`
falls back to, and the state after `apis.storage.local.clear()`. -/
def Scatter.placeholder : Scatter :=
  { settings := { inactivityInterval := 0, networks := [] },
    keychain := .clear { keypairs := [], identities := [], permissions := [] },
    histories := [] }

/-- Errors returned as tagged values across the message boundary. -/
inductive ErrType where
  | locked
  | identityMissing
  | maliciousEvent
  | identityRejected
deriving DecidableEq, Repr

/-- A reduced identity view disclosed to a domain.  Modelled from the spec:
`identity.asOnlyRequiredFields(fields, network)` projects only the granted
fields, excludes the private key, and is scoped by the permission's
network. -/
structure IdentityView where
  name : String
  publicKey : String
  fields : List (String × String)
  network : Network
deriving DecidableEq, Repr

/-- Modelled from the spec: project an identity to the granted fields. -/
def Identity.asOnlyRequiredFields (i : Identity) (required : List String)
    (network : Network) : IdentityView :=
  ⟨i.name, i.publicKey, i.fields.filter (fun kv => required.contains kv.1), network⟩

/-- The user's decision returned by the external prompt collaborator, as
inspected by `requestAddNetwork` (`approved === false`,
`approved.hasOwnProperty('isError')`, or an approval). -/
inductive Decision where
  | declined
  | errD (e : ErrType)
  | approved
deriving DecidableEq, Repr

/-- Prompts handed to `NotificationService.open`. -/
inductive Prompt where
  | scatterIsLocked
  | requestAddNetworkPrompt (domain : String) (network : Network)
  | updateVersion (domain : String)
deriving DecidableEq, Repr

/-- Values passed to `sendResponse`. -/
inductive Resp where
  | boolResp (b : Bool)
  | scatterResp (s : Scatter)
  | keyResp (k : Option String)
  | signatureResp (sig : String)
  | identityResp (i : Identity)
  | viewResp (v : IdentityView)
  | nullResp
  | errResp (e : ErrType)
  | decisionResp (d : Decision)
deriving DecidableEq, Repr

/-- The background script's state: the module-scope variables `seed`,
`inactivityInterval`, `timeoutLocker` (modelled as the pending firing time
of the scheduled auto-lock timer, if any), and the persisted vault document
behind `StorageService`. -/
structure BG where
  seed : String
  inactivityInterval : Nat
  timeoutLocker : Option Nat
  storage : Scatter
deriving DecidableEq, Repr

/-- The observable outcome of one handler run: either `sendResponse` was
invoked once (`ok`, with the post-state and the prompts opened), or an
uncaught exception ended the run with no response (`crash`, carrying the
state at the throw). -/
inductive Outcome where
  | ok (st : BG) (r : Resp) (prompts : List Prompt)
  | crash (st : BG) (prompts : List Prompt)
deriving DecidableEq, Repr

/-- `Background.checkAutoLock` (background.js lines 79-83): with a zero
inactivity interval do nothing; otherwise cancel any pending lock timer and,
if a seed is held, schedule a new one for `now + inactivityInterval`. -/
def Background.checkAutoLock (now : Nat) (st : BG) : BG :=
  if st.inactivityInterval = 0 then st
  else if st.seed = "" then { st with timeoutLocker := none }
  else { st with timeoutLocker := some (now + st.inactivityInterval) }

/-- `Background.setSeed` (lines 96-99): store the payload as the session
seed and respond `true`, with no validation. -/
def Background.setSeed (st : BG) (s : String) : Outcome :=
  .ok { st with seed := s } (.boolResp true) []

/-- `Background.isUnlocked` (lines 106-119): with no seed respond `false`;
otherwise attempt a document decrypt of the stored vault — on success
respond whether the keychain is an object, on failure clear the seed and
respond `false`. -/
def Background.isUnlocked (st : BG) : Outcome :=
  if st.seed = "" then .ok st (.boolResp false) []
  else
    match st.storage.decrypt st.seed with
    | some scatter => .ok st (.boolResp scatter.keychain.isObject) []
    | none => .ok { st with seed := "" } (.boolResp false) []

/-- `Background.load` (lines 126-135): read the stored vault, sync the
inactivity interval from its settings, then — if a seed is held — document
decrypt it (with no try/catch: a decode failure is an uncaught exception)
and hand the result to the continuation. -/
def Background.load (st : BG) : Outcome :=
  let st1 := { st with inactivityInterval := st.storage.settings.inactivityInterval }
  if st.seed = "" then .ok st1 (.scatterResp st.storage) []
  else
    match st.storage.decrypt st.seed with
    | some scatter => .ok st1 (.scatterResp scatter) []
    | none => .crash st1 []

/-- `Background.load` as reused internally by other handlers (they pass
their own continuation as `sendResponse`): the interval-synced state and
the decrypted vault, or `none` on the uncaught decode failure. -/
def Background.loadStep (st : BG) : BG × Option Scatter :=
  let st1 := { st with inactivityInterval := st.storage.settings.inactivityInterval }
  if st.seed = "" then (st1, some st.storage)
  else
    match st.storage.decrypt st.seed with
    | some scatter => (st1, some scatter)
    | none => (st1, none)

/-- Field-encrypt every keypair's and identity's private key (update step,
lines 148-149). -/
def Keychain.fieldEncryptAll (kc : Keychain) (seed : String) : Keychain :=
  { kc with
    keypairs := kc.keypairs.map (·.encrypt seed),
    identities := kc.identities.map (·.encrypt seed) }

/-- `Background.update` (lines 143-159): under the lock guard, field-encrypt
all private keys, document-encrypt the vault, persist it, then document
decrypt it again and respond with the post-save view.  A vault whose
keychain is not an object makes the field-encryption maps throw. -/
def Background.update (st : BG) (scatter : Scatter) : Outcome :=
  if st.seed = "" then .ok st (.errResp .locked) [.scatterIsLocked]
  else
    match scatter.keychain with
    | .enc _ _ => .crash st []
    | .clear kc =>
      let s1 : Scatter := { scatter with keychain := .clear (kc.fieldEncryptAll st.seed) }
      let s2 := s1.encrypt st.seed
      let st2 := { st with storage := s2 }
      match s2.decrypt st.seed with
      | some s3 => .ok st2 (.scatterResp s3) []
      | none => .crash st2 []

/-- `this.update(cb, scatter)` as invoked internally with a caller-supplied
continuation: the state after field-encrypting, document-encrypting and
persisting the vault, or `none` on an uncaught throw.  (The nested lock
guard branch performs no save; the post-save decrypt uses the same seed the
document was just encrypted with, so it cannot fail.) -/
def Background.updateState (st : BG) (scatter : Scatter) : Option BG :=
  if st.seed = "" then some st
  else
    match scatter.keychain with
    | .enc _ _ => none
    | .clear kc =>
      let s2 := (Scatter.encrypt { scatter with keychain := .clear (kc.fieldEncryptAll st.seed) } st.seed)
      match s2.decrypt st.seed with
      | some _ => some { st with storage := s2 }
      | none => none

/-- `Background.publicToPrivate` (lines 167-175): under the lock guard, read
and document-decrypt the vault, look the keypair up by public key, and
respond with its field-decrypted private key, or `null` if absent. -/
def Background.publicToPrivate (st : BG) (publicKey : String) : Outcome :=
  if st.seed = "" then .ok st (.errResp .locked) [.scatterIsLocked]
  else
    match st.storage.decrypt st.seed with
    | none => .crash st []
    | some scatter =>
      match scatter.keychain with
      | .enc _ _ => .crash st []
      | .clear kc =>
        match kc.keypairs.find? (fun x => decide (x.publicKey = publicKey)) with
        | none => .ok st (.keyResp none) []
        | some kp =>
          match kp.privateKey.fieldDecrypt st.seed with
          | some k => .ok st (.keyResp (some k)) []
          | none => .crash st []

/-- `Background.destroy` (lines 181-189): under the lock guard, clear the
seed, clear local storage, respond `true`. -/
def Background.destroy (st : BG) : Outcome :=
  if st.seed = "" then .ok st (.errResp .locked) [.scatterIsLocked]
  else .ok { st with seed := "", storage := Scatter.placeholder } (.boolResp true) []

/-- `Background.lockGuard` behaviour (lines 380-386) as an outcome: notify
the prompt collaborator with a lock notice and respond a `locked` error. -/
def Background.lockedOutcome (st : BG) : Outcome :=
  .ok st (.errResp .locked) [.scatterIsLocked]

/-- Sequential grant of a list of permissions (body of `addPermissions`,
lines 408-411): each permission is prepended unless its checksum already
occurs in the keychain. -/
def Keychain.grantPermissions (kc : Keychain) (ps : List Permission) : Keychain :=
  ps.foldl
    (fun k p =>
      if k.hasPermission p.checksum p.fields then k
      else { k with permissions := p :: k.permissions })
    kc

/-- `Background.addPermissions` (lines 406-414): load the vault, grant each
non-colliding permission, persist through the update cycle (the update's
response continuation is a no-op).  `none` models an uncaught throw. -/
def Background.addPermissions (st : BG) (ps : List Permission) : Option BG :=
  match Background.loadStep st with
  | (_, none) => none
  | (st1, some scatter) =>
    match scatter.keychain with
    | .enc _ _ => none
    | .clear kc =>
      Background.updateState st1 { scatter with keychain := .clear (kc.grantPermissions ps) }

/-- `Background.addHistory` (lines 395-400): load the vault, prepend the
historic event, persist through the update cycle. -/
def Background.addHistory (st : BG) (ev : HistoricEvent) : Option BG :=
  match Background.loadStep st with
  | (_, none) => none
  | (st1, some scatter) =>
    Background.updateState st1 { scatter with histories := ev :: scatter.histories }

/-- `Background.identityFromPermissions` (lines 222-238): with no seed held,
respond `null` with no prompt; otherwise load the vault, find a permission
for the requesting domain (`null` if none), resolve its identity and respond
the field-scoped view.  The permission lookup is modelled from the spec:
`IdentityService.identityPermission(domain, scatter)` is not in `src/`; the
spec's PermissionIndex matches a grant by the requesting domain. -/
def Background.identityFromPermissions (st : BG) (domain : String) : Outcome :=
  if st.seed = "" then .ok st .nullResp []
  else
    match Background.loadStep st with
    | (st1, none) => .crash st1 []
    | (st1, some scatter) =>
      match scatter.keychain with
      | .enc _ _ => .crash st1 []
      | .clear kc =>
        match kc.permissions.find? (fun p => decide (p.domain = domain)) with
        | none => .ok st1 .nullResp []
        | some perm =>
          match kc.identities.find? (fun i => decide (i.publicKey = perm.publicKey)) with
          | none => .crash st1 []
          | some idn =>
            .ok st1 (.viewResp (idn.asOnlyRequiredFields perm.fields perm.network)) []

/-- `Background.authenticate` (lines 287-305): under the lock guard, load
the vault, look the identity up by public key (`identity_missing` if
absent), field-decrypt its private key, reject an ill-formed key with
`malicious_event`, otherwise respond the signature over the domain.  The
elliptic-curve validity check and signer (`ecc.isValidPrivate`, `ecc.sign`)
are external collaborators, taken as parameters. -/
def Background.authenticate (isValidPrivate : String → Bool)
    (sign : String → String → String) (st : BG)
    (publicKey domain : String) : Outcome :=
  if st.seed = "" then Background.lockedOutcome st
  else
    match Background.loadStep st with
    | (st1, none) => .crash st1 []
    | (st1, some scatter) =>
      match scatter.keychain with
      | .enc _ _ => .crash st1 []
      | .clear kc =>
        match kc.identities.find? (fun i => decide (i.publicKey = publicKey)) with
        | none => .ok st1 (.errResp .identityMissing) []
        | some idn =>
          match idn.decryptKey st.seed with
          | none => .crash st1 []
          | some k =>
            if isValidPrivate k then .ok st1 (.signatureResp (sign domain k)) []
            else .ok st1 (.errResp .maliciousEvent) []

/-- `Background.requestSignature` (lines 312-318): under the lock guard,
load the vault and delegate entirely to the external `SignatureService`
(not in `src/`), which receives the decrypted vault and full control of the
response and state (it is passed the `Background` class itself). -/
def Background.requestSignature (svc : Scatter → BG → Outcome) (st : BG)
    : Outcome :=
  if st.seed = "" then Background.lockedOutcome st
  else
    match Background.loadStep st with
    | (st1, none) => .crash st1 []
    | (st1, some scatter) => svc scatter st1

/-- `Background.requestAddNetwork` (lines 325-345): under the lock guard,
load the vault; if a network with the same uniqueness key is already known,
respond `true` (no prompt); otherwise open an add-network prompt and — on a
declined or error decision — echo it unchanged, on approval prepend the
network to `settings.networks` and persist through the update cycle before
echoing the approval. -/
def Background.requestAddNetwork (st : BG) (domain : String) (network : Network)
    (decision : Decision) : Outcome :=
  if st.seed = "" then Background.lockedOutcome st
  else
    match Background.loadStep st with
    | (st1, none) => .crash st1 []
    | (st1, some scatter) =>
      if scatter.settings.networks.any (fun n => decide (n.unique = network.unique)) then
        .ok st1 (.boolResp true) []
      else
        let pr := Prompt.requestAddNetworkPrompt domain network
        match decision with
        | .declined => .ok st1 (.decisionResp .declined) [pr]
        | .errD e => .ok st1 (.decisionResp (.errD e)) [pr]
        | .approved =>
          let scatter2 :=
            { scatter with settings := { scatter.settings with networks := network :: scatter.settings.networks } }
          match Background.updateState st1 scatter2 with
          | none => .crash st1 [pr]
          | some st2 => .ok st2 (.decisionResp .approved) [pr]

/-- `Background.getOrRequestIdentity` (lines 245-279): under the lock guard,
load the vault and hand it to the external `IdentityService` (not in
`src/`), modelled as a parameter returning the provided identity (if any)
and whether it came from an existing permission.  A rejected provision is an
`identity_rejected` error; a freshly provided identity is recorded as a
historic event and granted a permission before being returned. -/
def Background.getOrRequestIdentity (svc : Scatter → Option Identity × Bool)
    (now : Nat) (st : BG) (domain : String) (network : Network)
    (fields : List String) : Outcome :=
  if st.seed = "" then Background.lockedOutcome st
  else
    match Background.loadStep st with
    | (st1, none) => .crash st1 []
    | (st1, some scatter) =>
      match svc scatter with
      | (none, _) => .ok st1 (.errResp .identityRejected) []
      | (some idn, true) => .ok st1 (.identityResp idn) []
      | (some idn, false) =>
        let ev : HistoricEvent :=
          { type := .providedIdentity,
            data := { domain := domain, network := network, provided := true,
                      identityName := idn.name, publicKey := idn.publicKey },
            timestamp := now }
        match Background.addHistory st1 ev with
        | none => .crash st1 []
        | some st2 =>
          let perm : Permission :=
            { domain := domain, network := network, publicKey := idn.publicKey,
              timestamp := now, fields := fields }
          match Background.addPermissions st2 [perm] with
          | none => .crash st2 []
          | some st3 => .ok st3 (.identityResp idn) []

/-- One observable step of the auto-lock timer subsystem: either a request
is dispatched — `dispenseMessage` (line 59) runs `checkAutoLock` before any
handler — or a pending timer fires, clearing the seed (the callback at
line 82). -/
inductive Background.BGStep : BG → BG → Prop where
  | dispense (now : Nat) (st : BG) : Background.BGStep st (Background.checkAutoLock now st)
  | fire (st : BG) (t : Nat) (h : st.timeoutLocker = some t) :
      Background.BGStep st { st with seed := "", timeoutLocker := none }

/-- Whether a private-key field is (still) field-level encrypted. -/
def PrivField.isFieldEncrypted : PrivField → Bool
  | .clearP _ => false
  | .encP _ _ => true

/-- Number of permissions in the keychain carrying a given checksum. -/
def Keychain.countChecksum (kc : Keychain) (c : Checksum) : Nat :=
  kc.permissions.countP (fun q => decide (q.checksum = c))

/-- Sample keypair stored field-encrypted under the passphrase `"s"`. -/
def sampleKeypair : Keypair :=
  { publicKey := "A", privateKey := .encP "s" "privA" }

/-- Sample identity stored field-encrypted under the passphrase `"s"`. -/
def sampleIdentity : Identity :=
  { name := "alice", publicKey := "A", privateKey := .encP "s" "privA",
    fields := [("email", "a@x")] }

/-- Sample network. -/
def sampleNetwork : Network := { host := "h", port := 1 }

/-- Sample permission for `sampleIdentity` on `sampleNetwork`. -/
def samplePermission : Permission :=
  { domain := "d", network := sampleNetwork, publicKey := "A",
    timestamp := 7, fields := ["email"] }

/-- Sample keychain. -/
def sampleKeychain : Keychain :=
  { keypairs := [sampleKeypair], identities := [sampleIdentity],
    permissions := [samplePermission] }

/-- Sample vault at rest: document-encrypted under `"s"`. -/
def sampleVault : Scatter :=
  { settings := { inactivityInterval := 0, networks := [sampleNetwork] },
    keychain := .enc "s" sampleKeychain,
    histories := [] }

/-- Sample unlocked background state (seed `"s"` matches the vault). -/
def sampleSt : BG :=
  { seed := "s", inactivityInterval := 0, timeoutLocker := none,
    storage := sampleVault }

/-- Sample locked background state (no seed held). -/
def sampleLockedSt : BG := { sampleSt with seed := "" }

/-- A state whose held seed `"b"` does not match the vault's document
encryption passphrase `"a"`: document decryption fails on every read. -/
def mismatchSt : BG :=
  { seed := "b", inactivityInterval := 0, timeoutLocker := none,
    storage := { settings := { inactivityInterval := 4, networks := [] },
                 keychain := .enc "a" { keypairs := [], identities := [], permissions := [] },
                 histories := [] } }

/-- The state `Background.load` leaves behind when its uncaught document
decryption failure aborts the run on `mismatchSt`: the inactivity interval
was already synced from storage, the seed was not touched. -/
def mismatchStAfterLoad : BG := { mismatchSt with inactivityInterval := 4 }

/-- C1 counterexample.  The claim says every vault-reading operation clears
the session passphrase and reports the locked/failed state when document
decryption fails.  At `mismatchSt` (held seed `"b"`, vault encrypted under
`"a"`), `Background.load` — a vault read — ends in an uncaught exception:
no response of any kind is sent and the seed is still `"b"`, not cleared. -/
theorem C1_load_keeps_seed_on_decrypt_failure :
    Background.load mismatchSt = Outcome.crash mismatchStAfterLoad [] ∧
      mismatchStAfterLoad.seed = "b" := by
  decide

/-- C1 (amended): on document-decryption failure with a held passphrase, the
lock-status check `isUnlocked` clears the passphrase and responds `false`,
but the vault-load read `load` does not catch the failure: it neither clears
the passphrase nor sends any response (the run ends in an uncaught
exception after syncing the inactivity interval). -/
theorem C1_decrypt_failure_isUnlocked_clears_load_does_not (st : BG)
    (hseed : st.seed ≠ "") (hfail : st.storage.decrypt st.seed = none) :
    Background.isUnlocked st = .ok { st with seed := "" } (.boolResp false) [] ∧
      Background.load st =
        .crash { st with inactivityInterval := st.storage.settings.inactivityInterval } [] := by
  constructor
  · simp [Background.isUnlocked, hseed, hfail]
  · simp [Background.load, hseed, hfail]

/-- C1 amended-claim witness at the concrete mismatch state. -/
theorem C1_decrypt_failure_witness :
    Background.isUnlocked mismatchSt =
        .ok { mismatchSt with seed := "" } (.boolResp false) [] ∧
      Background.load mismatchSt =
        .crash { mismatchSt with inactivityInterval := mismatchSt.storage.settings.inactivityInterval } [] :=
  C1_decrypt_failure_isUnlocked_clears_load_does_not mismatchSt (by decide) (by decide)

/-- C2: with no session passphrase held, every privileged operation —
update, publicToPrivate, destroy, getOrRequestIdentity, authenticate,
requestSignature, requestAddNetwork — responds with the `locked` error,
notifies the prompt collaborator with a lock notice, and leaves the state
untouched (no vault load, no state change). -/
theorem C2_locked_rejects_privileged_operations (st : BG) (h : st.seed = "") :
    (∀ scatter, Background.update st scatter = Background.lockedOutcome st) ∧
      (∀ pk, Background.publicToPrivate st pk = Background.lockedOutcome st) ∧
      Background.destroy st = Background.lockedOutcome st ∧
      (∀ svc now d n f,
        Background.getOrRequestIdentity svc now st d n f = Background.lockedOutcome st) ∧
      (∀ ivp sgn pk d,
        Background.authenticate ivp sgn st pk d = Background.lockedOutcome st) ∧
      (∀ svc, Background.requestSignature svc st = Background.lockedOutcome st) ∧
      (∀ d n dec, Background.requestAddNetwork st d n dec = Background.lockedOutcome st) := by
  refine ⟨fun scatter => ?_, fun pk => ?_, ?_, fun svc now d n f => ?_,
    fun ivp sgn pk d => ?_, fun svc => ?_, fun d n dec => ?_⟩ <;>
    simp [Background.update, Background.publicToPrivate, Background.destroy,
      Background.getOrRequestIdentity, Background.authenticate,
      Background.requestSignature, Background.requestAddNetwork,
      Background.lockedOutcome, h]

/-- C2 witness at the concrete locked state. -/
theorem C2_locked_rejects_witness :
    Background.update sampleLockedSt sampleVault = Background.lockedOutcome sampleLockedSt ∧
      Background.destroy sampleLockedSt = Background.lockedOutcome sampleLockedSt := by
  have h := C2_locked_rejects_privileged_operations sampleLockedSt (by decide)
  exact ⟨h.1 sampleVault, h.2.2.1⟩

/-- C3: under an unlocked session, `update` field-encrypts every keypair's
and identity's private key, document-encrypts the vault, hands exactly that
document-encrypted value to the storage adapter, then document-decrypts it
and returns it; the persisted document is encrypted at rest and every
private-key field in the returned post-save view is still field-encrypted. -/
theorem C3_update_cycle (st : BG) (scatter : Scatter) (kc : Keychain)
    (hseed : st.seed ≠ "") (hkc : scatter.keychain = .clear kc) :
    Background.update st scatter =
        .ok { st with storage :=
                Scatter.encrypt { scatter with keychain := .clear (kc.fieldEncryptAll st.seed) } st.seed }
          (.scatterResp { scatter with keychain := .clear (kc.fieldEncryptAll st.seed) }) [] ∧
      (Scatter.encrypt { scatter with keychain := .clear (kc.fieldEncryptAll st.seed) } st.seed).isEncrypted = true ∧
      (∀ kp ∈ (kc.fieldEncryptAll st.seed).keypairs, kp.privateKey.isFieldEncrypted = true) ∧
      (∀ i ∈ (kc.fieldEncryptAll st.seed).identities, i.privateKey.isFieldEncrypted = true) := by
  refine ⟨?_, ?_, ?_, ?_⟩
  · simp [Background.update, hkc, hseed, Scatter.encrypt, Scatter.decrypt]
  · simp [Scatter.encrypt, Scatter.isEncrypted]
  · intro kp hkp
    simp [Keychain.fieldEncryptAll] at hkp
    obtain ⟨kp0, _, rfl⟩ := hkp
    cases h : kp0.privateKey <;>
      simp [Keypair.encrypt, PrivField.fieldEncrypt, PrivField.isFieldEncrypted, h]
  · intro i hi
    simp [Keychain.fieldEncryptAll] at hi
    obtain ⟨i0, _, rfl⟩ := hi
    cases h : i0.privateKey <;>
      simp [Identity.encrypt, PrivField.fieldEncrypt, PrivField.isFieldEncrypted, h]

/-- C3 witness at the concrete unlocked state and decrypted sample vault. -/
theorem C3_update_cycle_witness :
    Background.update sampleSt { sampleVault with keychain := .clear sampleKeychain } =
      .ok { sampleSt with storage := Scatter.encrypt { sampleVault with
              keychain := .clear (sampleKeychain.fieldEncryptAll sampleSt.seed) } sampleSt.seed }
        (.scatterResp { sampleVault with
          keychain := .clear (sampleKeychain.fieldEncryptAll sampleSt.seed) }) [] :=
  (C3_update_cycle sampleSt { sampleVault with keychain := .clear sampleKeychain }
    sampleKeychain (by decide) rfl).1

/-- C4: under an unlocked session whose vault decrypts with the held seed,
`publicToPrivate` responds `null` (not an error) when no keypair carries the
requested public key, and otherwise responds the field-decrypted private key
of the matching keypair; the state is untouched either way. -/
theorem C4_publicToPrivate (seed : String) (ival : Nat) (lock : Option Nat)
    (stg : Settings) (kc : Keychain) (hist : List HistoricEvent) (pub : String)
    (hseed : seed ≠ "") :
    (kc.keypairs.find? (fun x => decide (x.publicKey = pub)) = none →
      Background.publicToPrivate ⟨seed, ival, lock, ⟨stg, .enc seed kc, hist⟩⟩ pub =
        .ok ⟨seed, ival, lock, ⟨stg, .enc seed kc, hist⟩⟩ (.keyResp none) []) ∧
    (∀ kp k, kc.keypairs.find? (fun x => decide (x.publicKey = pub)) = some kp →
      kp.privateKey = .encP seed k →
      Background.publicToPrivate ⟨seed, ival, lock, ⟨stg, .enc seed kc, hist⟩⟩ pub =
        .ok ⟨seed, ival, lock, ⟨stg, .enc seed kc, hist⟩⟩ (.keyResp (some k)) []) := by
  constructor
  · intro hfind
    simp [Background.publicToPrivate, Scatter.decrypt, hseed, hfind]
  · intro kp k hfind hkp
    simp [Background.publicToPrivate, Scatter.decrypt, hseed, hfind, hkp,
      PrivField.fieldDecrypt]

/-- C4 witness: at the sample state, the known key `"A"` yields its
decrypted private key and the unknown key `"B"` yields `null`. -/
theorem C4_publicToPrivate_witness :
    Background.publicToPrivate ⟨"s", 0, none, ⟨sampleVault.settings, .enc "s" sampleKeychain, []⟩⟩ "B" =
        .ok ⟨"s", 0, none, ⟨sampleVault.settings, .enc "s" sampleKeychain, []⟩⟩ (.keyResp none) [] ∧
      Background.publicToPrivate ⟨"s", 0, none, ⟨sampleVault.settings, .enc "s" sampleKeychain, []⟩⟩ "A" =
        .ok ⟨"s", 0, none, ⟨sampleVault.settings, .enc "s" sampleKeychain, []⟩⟩ (.keyResp (some "privA")) [] :=
  ⟨(C4_publicToPrivate "s" 0 none sampleVault.settings sampleKeychain [] "B"
      (by decide)).1 (by decide),
   (C4_publicToPrivate "s" 0 none sampleVault.settings sampleKeychain [] "A"
      (by decide)).2 sampleKeypair "privA" (by decide) (by decide)⟩

/-- C5: under an unlocked session whose vault decrypts with the held seed,
`authenticate` responds `identity_missing` when no identity carries the
requested public key; when the identity exists but its field-decrypted
private key fails the well-formedness check it responds `malicious_event`;
otherwise it responds the signature of the domain string produced with the
decrypted private key. -/
theorem C5_authenticate (isValidPrivate : String → Bool)
    (sign : String → String → String) (seed : String) (ival : Nat)
    (lock : Option Nat) (stg : Settings) (kc : Keychain)
    (hist : List HistoricEvent) (pub domain : String) (hseed : seed ≠ "") :
    (kc.identities.find? (fun i => decide (i.publicKey = pub)) = none →
      Background.authenticate isValidPrivate sign
          ⟨seed, ival, lock, ⟨stg, .enc seed kc, hist⟩⟩ pub domain =
        .ok ⟨seed, stg.inactivityInterval, lock, ⟨stg, .enc seed kc, hist⟩⟩
          (.errResp .identityMissing) []) ∧
    (∀ idn k, kc.identities.find? (fun i => decide (i.publicKey = pub)) = some idn →
      idn.privateKey = .encP seed k →
      isValidPrivate k = false →
      Background.authenticate isValidPrivate sign
          ⟨seed, ival, lock, ⟨stg, .enc seed kc, hist⟩⟩ pub domain =
        .ok ⟨seed, stg.inactivityInterval, lock, ⟨stg, .enc seed kc, hist⟩⟩
          (.errResp .maliciousEvent) []) ∧
    (∀ idn k, kc.identities.find? (fun i => decide (i.publicKey = pub)) = some idn →
      idn.privateKey = .encP seed k →
      isValidPrivate k = true →
      Background.authenticate isValidPrivate sign
          ⟨seed, ival, lock, ⟨stg, .enc seed kc, hist⟩⟩ pub domain =
        .ok ⟨seed, stg.inactivityInterval, lock, ⟨stg, .enc seed kc, hist⟩⟩
          (.signatureResp (sign domain k)) []) := by
  refine ⟨fun hfind => ?_, fun idn k hfind hk hval => ?_, fun idn k hfind hk hval => ?_⟩ <;>
    simp [Background.authenticate, Background.loadStep, Background.lockedOutcome,
      Scatter.decrypt, Identity.decryptKey, hseed, hfind, *]

/-- C5 witness: at the sample state, an unknown key is `identity_missing`,
and the known identity signs or is rejected depending on the validity
check. -/
theorem C5_authenticate_witness :
    Background.authenticate (fun _ => true) (fun d k => d ++ "/" ++ k)
        ⟨"s", 0, none, ⟨sampleVault.settings, .enc "s" sampleKeychain, []⟩⟩ "B" "dom" =
      .ok ⟨"s", sampleVault.settings.inactivityInterval, none,
            ⟨sampleVault.settings, .enc "s" sampleKeychain, []⟩⟩
        (.errResp .identityMissing) [] ∧
    Background.authenticate (fun _ => false) (fun d k => d ++ "/" ++ k)
        ⟨"s", 0, none, ⟨sampleVault.settings, .enc "s" sampleKeychain, []⟩⟩ "A" "dom" =
      .ok ⟨"s", sampleVault.settings.inactivityInterval, none,
            ⟨sampleVault.settings, .enc "s" sampleKeychain, []⟩⟩
        (.errResp .maliciousEvent) [] ∧
    Background.authenticate (fun _ => true) (fun d k => d ++ "/" ++ k)
        ⟨"s", 0, none, ⟨sampleVault.settings, .enc "s" sampleKeychain, []⟩⟩ "A" "dom" =
      .ok ⟨"s", sampleVault.settings.inactivityInterval, none,
            ⟨sampleVault.settings, .enc "s" sampleKeychain, []⟩⟩
        (.signatureResp ("dom" ++ "/" ++ "privA")) [] :=
  ⟨(C5_authenticate (fun _ => true) (fun d k => d ++ "/" ++ k) "s" 0 none
      sampleVault.settings sampleKeychain [] "B" "dom" (by decide)).1 (by decide),
   (C5_authenticate (fun _ => false) (fun d k => d ++ "/" ++ k) "s" 0 none
      sampleVault.settings sampleKeychain [] "A" "dom" (by decide)).2.1
      sampleIdentity "privA" (by decide) (by decide) rfl,
   (C5_authenticate (fun _ => true) (fun d k => d ++ "/" ++ k) "s" 0 none
      sampleVault.settings sampleKeychain [] "A" "dom" (by decide)).2.2
      sampleIdentity "privA" (by decide) (by decide) rfl⟩

/-- One grant step preserves checksum uniqueness in the permission list. -/
lemma grant_step_pairwise (kc : Keychain) (p : Permission)
    (h : kc.permissions.Pairwise (fun a b => a.checksum ≠ b.checksum)) :
    (if kc.hasPermission p.checksum p.fields then kc
     else { kc with permissions := p :: kc.permissions }).permissions.Pairwise
      (fun a b => a.checksum ≠ b.checksum) := by
  cases hmem : kc.hasPermission p.checksum p.fields with
  | true => simpa [hmem] using h
  | false =>
    have hmem' : ∀ q ∈ kc.permissions, ¬(q.checksum = p.checksum) := by
      simpa [Keychain.hasPermission, List.any_eq_false] using hmem
    simp only [hmem, Bool.false_eq_true, if_false]
    refine List.Pairwise.cons (fun q hq => ?_) h
    exact fun hEq => hmem' q hq hEq.symm

/-- C6: adding a permission whose checksum already occurs in
`keychain.permissions` is a no-op, so granting the same permission twice
starting from a keychain without that checksum leaves exactly one entry with
it, and any sequence of grants preserves uniqueness of checksums within
`keychain.permissions`. -/
theorem C6_permission_checksums_unique :
    (∀ (kc : Keychain) (p : Permission), kc.countChecksum p.checksum = 0 →
      ((kc.grantPermissions [p]).grantPermissions [p]).countChecksum p.checksum = 1) ∧
    (∀ (kc : Keychain) (ps : List Permission),
      kc.permissions.Pairwise (fun a b => a.checksum ≠ b.checksum) →
      (kc.grantPermissions ps).permissions.Pairwise (fun a b => a.checksum ≠ b.checksum)) := by
  constructor
  · intro kc p h0
    have hno : kc.hasPermission p.checksum p.fields = false := by
      simp only [Keychain.countChecksum, List.countP_eq_zero] at h0
      simp only [Keychain.hasPermission, List.any_eq_false]
      intro q hq
      simpa using h0 q hq
    have h1 : kc.grantPermissions [p] = { kc with permissions := p :: kc.permissions } := by
      simp [Keychain.grantPermissions, hno]
    have hyes : ({ kc with permissions := p :: kc.permissions } : Keychain).hasPermission
        p.checksum p.fields = true := by
      simp [Keychain.hasPermission]
    have h2 : ({ kc with permissions := p :: kc.permissions } : Keychain).grantPermissions [p] =
        { kc with permissions := p :: kc.permissions } := by
      simp [Keychain.grantPermissions, hyes]
    rw [h1, h2]
    simp only [Keychain.countChecksum] at h0 ⊢
    simp [List.countP_cons, h0]
  · intro kc ps
    induction ps generalizing kc with
    | nil => exact fun h => h
    | cons p ps ih => exact fun h => ih _ (grant_step_pairwise kc p h)

/-- C6 witness: granting the sample permission twice to an empty keychain
leaves exactly one entry with its checksum, and a grant preserves checksum
uniqueness starting from the empty keychain. -/
theorem C6_permission_checksums_unique_witness :
    ((({ keypairs := [], identities := [], permissions := [] } :
          Keychain).grantPermissions [samplePermission]).grantPermissions
        [samplePermission]).countChecksum samplePermission.checksum = 1 ∧
      ((({ keypairs := [], identities := [], permissions := [] } :
          Keychain).grantPermissions [samplePermission]).permissions.Pairwise
        (fun a b => a.checksum ≠ b.checksum)) :=
  ⟨C6_permission_checksums_unique.1
      { keypairs := [], identities := [], permissions := [] } samplePermission (by decide),
   C6_permission_checksums_unique.2
      { keypairs := [], identities := [], permissions := [] } [samplePermission] (by simp)⟩

/-- Reachability under timer steps from a duration-zero state with no
pending timer preserves the seed, the zero interval and the absence of a
pending timer. -/
lemma bgstep_zero_interval_invariant (st st' : BG)
    (h : Relation.ReflTransGen Background.BGStep st st')
    (h0 : st.inactivityInterval = 0) (hl : st.timeoutLocker = none) :
    st'.seed = st.seed ∧ st'.inactivityInterval = 0 ∧ st'.timeoutLocker = none := by
  induction h with
  | refl => exact ⟨rfl, h0, hl⟩
  | tail _ step ih =>
    obtain ⟨hseed, hival, hlock⟩ := ih
    cases step with
    | dispense now =>
      simp [Background.checkAutoLock, hival, hseed, hlock]
    | fire =>
      rename_i t hfire
      rw [hlock] at hfire
      exact absurd hfire (by simp)

/-- C7: with a zero configured inactivity duration (and hence no pending
lock timer), no sequence of dispatched requests — each of which runs
`checkAutoLock` — and timer firings ever changes the seed, so auto-lock is
disabled; with a nonzero duration, a dispatched request with a held seed
cancels any pending timer and schedules one for `now + duration`, and a
pending timer's firing clears the passphrase. -/
theorem C7_autolock_timer :
    (∀ st st' : BG, st.inactivityInterval = 0 → st.timeoutLocker = none →
      Relation.ReflTransGen Background.BGStep st st' → st'.seed = st.seed) ∧
    (∀ (st : BG) (now : Nat), st.inactivityInterval ≠ 0 → st.seed ≠ "" →
      Background.checkAutoLock now st =
        { st with timeoutLocker := some (now + st.inactivityInterval) }) ∧
    (∀ (st : BG) (t : Nat), st.timeoutLocker = some t →
      Background.BGStep st { st with seed := "", timeoutLocker := none }) := by
  refine ⟨?_, ?_, ?_⟩
  · intro st st' h0 hl h
    exact (bgstep_zero_interval_invariant st st' h h0 hl).1
  · intro st now h0 hs
    simp [Background.checkAutoLock, h0, hs]
  · intro st t ht
    exact Background.BGStep.fire st t ht

/-- C7 witness: a dispatched request at an unlocked duration-zero state
leaves the seed in place; at a duration-3 state it schedules the timer for
`now + 3`; and a pending timer's firing clears the seed. -/
theorem C7_autolock_timer_witness :
    (Background.checkAutoLock 5 sampleSt).seed = sampleSt.seed ∧
      Background.checkAutoLock 5 { sampleSt with inactivityInterval := 3 } =
        { sampleSt with inactivityInterval := 3, timeoutLocker := some (5 + 3) } ∧
      Background.BGStep { sampleSt with timeoutLocker := some 9 }
        { sampleSt with seed := "", timeoutLocker := none } :=
  ⟨C7_autolock_timer.1 sampleSt (Background.checkAutoLock 5 sampleSt) (by decide) (by decide)
      (Relation.ReflTransGen.single (Background.BGStep.dispense 5 sampleSt)),
   C7_autolock_timer.2.1 { sampleSt with inactivityInterval := 3 } 5 (by decide) (by decide),
   C7_autolock_timer.2.2 { sampleSt with timeoutLocker := some 9 } 9 (by decide)⟩

/-- C8: under an unlocked session whose vault decrypts with the held seed,
`requestAddNetwork` responds success without opening any prompt when a
network with the same uniqueness key is already in `settings.networks`; for
a new network it opens a prompt and — on approval — prepends the network to
`settings.networks` and persists it through the update cycle, while a
declined prompt leaves the stored networks unchanged. -/
theorem C8_requestAddNetwork (seed : String) (ival : Nat) (lock : Option Nat)
    (stg : Settings) (kc : Keychain) (hist : List HistoricEvent)
    (domain : String) (network : Network) (hseed : seed ≠ "") :
    (stg.networks.any (fun n => decide (n.unique = network.unique)) = true →
      ∀ decision, Background.requestAddNetwork
          ⟨seed, ival, lock, ⟨stg, .enc seed kc, hist⟩⟩ domain network decision =
        .ok ⟨seed, stg.inactivityInterval, lock, ⟨stg, .enc seed kc, hist⟩⟩
          (.boolResp true) []) ∧
    (stg.networks.any (fun n => decide (n.unique = network.unique)) = false →
      Background.requestAddNetwork
          ⟨seed, ival, lock, ⟨stg, .enc seed kc, hist⟩⟩ domain network .approved =
        .ok ⟨seed, stg.inactivityInterval, lock,
              ⟨{ stg with networks := network :: stg.networks },
               .enc seed (kc.fieldEncryptAll seed), hist⟩⟩
          (.decisionResp .approved) [.requestAddNetworkPrompt domain network]) ∧
    (stg.networks.any (fun n => decide (n.unique = network.unique)) = false →
      Background.requestAddNetwork
          ⟨seed, ival, lock, ⟨stg, .enc seed kc, hist⟩⟩ domain network .declined =
        .ok ⟨seed, stg.inactivityInterval, lock, ⟨stg, .enc seed kc, hist⟩⟩
          (.decisionResp .declined) [.requestAddNetworkPrompt domain network]) := by
  refine ⟨fun hfound decision => ?_, fun hnew => ?_, fun hnew => ?_⟩ <;>
    simp [Background.requestAddNetwork, Background.loadStep, Background.updateState,
      Background.lockedOutcome, Scatter.decrypt, Scatter.encrypt, hseed, *]

/-- C8 witness: the sample network is already known, so every decision gets
a promptless success; a fresh network is added on approval and left out on
decline. -/
theorem C8_requestAddNetwork_witness :
    Background.requestAddNetwork
        ⟨"s", 0, none, ⟨sampleVault.settings, .enc "s" sampleKeychain, []⟩⟩
        "d" sampleNetwork .declined =
      .ok ⟨"s", sampleVault.settings.inactivityInterval, none,
            ⟨sampleVault.settings, .enc "s" sampleKeychain, []⟩⟩ (.boolResp true) [] ∧
    Background.requestAddNetwork
        ⟨"s", 0, none, ⟨sampleVault.settings, .enc "s" sampleKeychain, []⟩⟩
        "d" { host := "x", port := 2 } .approved =
      .ok ⟨"s", sampleVault.settings.inactivityInterval, none,
            ⟨{ sampleVault.settings with networks := { host := "x", port := 2 } :: sampleVault.settings.networks },
             .enc "s" (sampleKeychain.fieldEncryptAll "s"), []⟩⟩
        (.decisionResp .approved) [.requestAddNetworkPrompt "d" { host := "x", port := 2 }] ∧
    Background.requestAddNetwork
        ⟨"s", 0, none, ⟨sampleVault.settings, .enc "s" sampleKeychain, []⟩⟩
        "d" { host := "x", port := 2 } .declined =
      .ok ⟨"s", sampleVault.settings.inactivityInterval, none,
            ⟨sampleVault.settings, .enc "s" sampleKeychain, []⟩⟩
        (.decisionResp .declined) [.requestAddNetworkPrompt "d" { host := "x", port := 2 }] :=
  ⟨(C8_requestAddNetwork "s" 0 none sampleVault.settings sampleKeychain [] "d"
      sampleNetwork (by decide)).1 (by decide) .declined,
   (C8_requestAddNetwork "s" 0 none sampleVault.settings sampleKeychain [] "d"
      { host := "x", port := 2 } (by decide)).2.1 (by decide),
   (C8_requestAddNetwork "s" 0 none sampleVault.settings sampleKeychain [] "d"
      { host := "x", port := 2 } (by decide)).2.2 (by decide)⟩

/-- C9: `setSeed` accepts any payload — including the empty string — and
always responds `true` without validation; after setting the empty
passphrase the session is locked, so every privileged operation is rejected
with the `locked` error (and a lock notice) until a non-empty passphrase is
set. -/
theorem C9_setSeed_unvalidated (st : BG) :
    (∀ p, Background.setSeed st p = .ok { st with seed := p } (.boolResp true) []) ∧
      Background.setSeed st "" = .ok { st with seed := "" } (.boolResp true) [] ∧
      (∀ scatter, Background.update { st with seed := "" } scatter =
        Background.lockedOutcome { st with seed := "" }) ∧
      (∀ pk, Background.publicToPrivate { st with seed := "" } pk =
        Background.lockedOutcome { st with seed := "" }) ∧
      Background.destroy { st with seed := "" } =
        Background.lockedOutcome { st with seed := "" } ∧
      (∀ svc now d n f, Background.getOrRequestIdentity svc now { st with seed := "" } d n f =
        Background.lockedOutcome { st with seed := "" }) ∧
      (∀ ivp sgn pk d, Background.authenticate ivp sgn { st with seed := "" } pk d =
        Background.lockedOutcome { st with seed := "" }) ∧
      (∀ svc, Background.requestSignature svc { st with seed := "" } =
        Background.lockedOutcome { st with seed := "" }) ∧
      (∀ d n dec, Background.requestAddNetwork { st with seed := "" } d n dec =
        Background.lockedOutcome { st with seed := "" }) := by
  refine ⟨fun p => rfl, rfl, fun scatter => ?_, fun pk => ?_, ?_,
    fun svc now d n f => ?_, fun ivp sgn pk d => ?_, fun svc => ?_, fun d n dec => ?_⟩ <;>
    simp [Background.update, Background.publicToPrivate, Background.destroy,
      Background.getOrRequestIdentity, Background.authenticate,
      Background.requestSignature, Background.requestAddNetwork,
      Background.lockedOutcome]

/-- C10: with no seed held, `identityFromPermissions` responds `null` —
not a `locked` error — opens no prompt and leaves the state untouched,
unlike the lock-guarded privileged operations; under an unlocked session it
also responds `null` when no permission matches the requesting domain. -/
theorem C10_identityFromPermissions_null :
    (∀ (st : BG) (domain : String), st.seed = "" →
      Background.identityFromPermissions st domain = .ok st .nullResp []) ∧
    (∀ (seed : String) (ival : Nat) (lock : Option Nat) (stg : Settings)
        (kc : Keychain) (hist : List HistoricEvent) (domain : String),
      seed ≠ "" →
      kc.permissions.find? (fun p => decide (p.domain = domain)) = none →
      Background.identityFromPermissions
          ⟨seed, ival, lock, ⟨stg, .enc seed kc, hist⟩⟩ domain =
        .ok ⟨seed, stg.inactivityInterval, lock, ⟨stg, .enc seed kc, hist⟩⟩ .nullResp []) := by
  constructor
  · intro st domain h
    simp [Background.identityFromPermissions, h]
  · intro seed ival lock stg kc hist domain hseed hfind
    simp [Background.identityFromPermissions, Background.loadStep,
      Scatter.decrypt, hseed, hfind]

/-- C10 witness: the locked sample state answers `null`, and the unlocked
sample state answers `null` for a domain with no matching permission. -/
theorem C10_identityFromPermissions_null_witness :
    Background.identityFromPermissions sampleLockedSt "d" = .ok sampleLockedSt .nullResp [] ∧
      Background.identityFromPermissions
          ⟨"s", 0, none, ⟨sampleVault.settings, .enc "s" sampleKeychain, []⟩⟩ "other" =
        .ok ⟨"s", sampleVault.settings.inactivityInterval, none,
              ⟨sampleVault.settings, .enc "s" sampleKeychain, []⟩⟩ .nullResp [] :=
  ⟨C10_identityFromPermissions_null.1 sampleLockedSt "d" (by decide),
   C10_identityFromPermissions_null.2 "s" 0 none sampleVault.settings sampleKeychain []
      "other" (by decide) (by decide)⟩
